import Mathlib

/-!
# Verification of the train-agent ingestion-and-retrieval pipeline

A shallow embedding of the core of the `train-agent` repository:

* the chunker `createChunks` (src/server.js),
* the embedding batcher `generateEmbeddings` (src/server.js),
* cosine similarity and the dual-backend `search`
  (src/services/knowledgeBaseService.js),
* the ingestion orchestrator `uploadDocument` and the deletion path
  `deleteDocument` (src/services/knowledgeBaseService.js),
* the two HTTP search entry points and their default thresholds
  (src/routes/knowledgeBaseRoutes.js and the agent-id route variant).

Modelling conventions:

* JS strings are `List Char` for the chunker (where index arithmetic
  matters) and `String` elsewhere.
* JS numbers are `ℚ` (exact rationals).  `Math.sqrt` is modelled by
  `Rat.sqrt`; like float sqrt it is an approximate square root that is
  zero exactly on nonpositive inputs, and no claim below depends on the
  numeric value of a similarity score.
* Fallible operations return `Except String _`; a JS `throw` is `.error`.
* The relational store is an explicit record of row lists; SQL statements
  are translated to list operations row by row.
-/

set_option maxRecDepth 8000

namespace TrainAgent

/-- JS whitespace test used by `String.prototype.trim`. -/
def jsIsWs (c : Char) : Bool := c.isWhitespace

/-- Model of `String.prototype.trim`: drop leading and trailing whitespace. -/
def jsTrim (l : List Char) : List Char :=
  ((l.dropWhile jsIsWs).reverse.dropWhile jsIsWs).reverse

/-- Model of `String.prototype.lastIndexOf(sep, fromIdx)`: the largest
index `i ≤ fromIdx` at which `sep` occurs in `content` (`none` models the
JS return value `-1`). -/
def jsLastIndexOf (content sep : List Char) (fromIdx : Nat) : Option Nat :=
  ((List.range (fromIdx + 1)).filter (fun i => sep.isPrefixOf (content.drop i))).max?

/-- The separator scan of `createChunks` (src/server.js:426-432): walk the
separators in priority order; the first one with an occurrence strictly
later than `start + chunkSize * 0.5` yields the cut `lastIndex + sep.length`.
The JS comparison `lastIndex > start + chunkSize * 0.5` is written
multiplied by two so it stays in `Nat`. -/
def findSepBreak (content : List Char) (start chunkSize e : Nat) :
    List (List Char) → Option Nat
  | [] => none
  | sep :: rest =>
    match jsLastIndexOf content sep e with
    | some i =>
      if 2 * i > 2 * start + chunkSize then some (i + sep.length)
      else findSepBreak content start chunkSize e rest
    | none => findSepBreak content start chunkSize e rest

/-- The window-end computation of one `createChunks` iteration
(src/server.js:421-433): raw end `min (start+chunkSize) len`, moved back to
a qualifying separator cut when the window does not already reach the end
of the text. -/
def chunkBestEnd (content : List Char) (chunkSize : Nat)
    (separators : List (List Char)) (start : Nat) : Nat :=
  let e := min (start + chunkSize) content.length
  if e < content.length then
    match findSepBreak content start chunkSize e separators with
    | some b => b
    | none => e
  else e

/-- The next window start of `createChunks` (src/server.js:442-447):
`nextStart = max(start + 1, end - overlap)`, forced to `end` if that did
not advance.  JS `end - overlap` can be negative; `Nat` subtraction
truncates at 0, and `max (start+1) 0 = start+1` agrees with
`max (start+1) negative`. -/
def chunkNextStart (content : List Char) (chunkSize overlap : Nat)
    (separators : List (List Char)) (start : Nat) : Nat :=
  let e := chunkBestEnd content chunkSize separators start
  let nextStart := max (start + 1) (e - overlap)
  if nextStart ≤ start then e else nextStart

/-- The `while (start < content.length)` loop of `createChunks`
(src/server.js:420-454), including the trim-and-drop of empty chunks and
the 1000-chunk safety cap.  The loop is driven by explicit fuel;
`chunkLoop_fuel_stable` below shows any fuel `≥ content.length - start`
gives the same result, so `createChunks` (which passes
`content.length + 1`) computes exactly the JS loop. -/
def chunkLoop (content : List Char) (chunkSize overlap : Nat)
    (separators : List (List Char)) :
    Nat → Nat → List (List Char) → List (List Char)
  | 0, _, acc => acc
  | fuel + 1, start, acc =>
    if start < content.length then
      let e := chunkBestEnd content chunkSize separators start
      -- content.slice(start, end).trim()
      let chunk := jsTrim ((content.take e).drop start)
      let acc1 := if chunk.length > 0 then acc ++ [chunk] else acc
      if acc1.length > 1000 then acc1
      else
        chunkLoop content chunkSize overlap separators fuel
          (chunkNextStart content chunkSize overlap separators start) acc1
    else acc

/-- Model of `createChunks(content, options)` (src/server.js:406-457). -/
def createChunks (content : List Char) (chunkSize overlap : Nat)
    (separators : List (List Char)) : List (List Char) :=
  if content.length ≤ chunkSize then [content]
  else chunkLoop content chunkSize overlap separators (content.length + 1) 0 []

/-- The default separators of `createChunks` (src/server.js:410). -/
def defaultSeparators : List (List Char) :=
  [['\n', '\n'], ['\n'], ['.', ' '], ['!', ' '], ['?', ' '], [';', ' '], [' ']]





/-! ## Embedding batcher (`generateEmbeddings`, src/server.js:464-542) -/

/-- One produced embedding record: `{chunkIndex, chunk, embedding, metadata}`.
Of the metadata only the mock marker matters to any claim: `isMock` is true
exactly when the vector is a `Math.random()` placeholder (the unconfigured
path and the per-batch failure path, which record it as
`metadata.error` / absence of `metadata.model`). -/
structure EmbedItem where
  chunkIndex : Nat
  chunk : String
  embedding : List ℚ
  isMock : Bool
deriving DecidableEq, Repr

/-- Model of `Array(1536).fill(0).map(() => Math.random())`: 1536 draws
from the random stream `rand`, keyed by the chunk index. -/
def mockEmbedding (rand : Nat → Nat → ℚ) (i : Nat) : List ℚ :=
  (List.range 1536).map (rand i)

/-- The mock items pushed for a whole batch starting at chunk index `i`
(src/server.js:524-537 and, for the unconfigured path, 470-480). -/
def mockBatchItems (rand : Nat → Nat → ℚ) (i : Nat) (batch : List String) :
    List EmbedItem :=
  batch.enum.map (fun p =>
    { chunkIndex := i + p.1, chunk := p.2,
      embedding := mockEmbedding rand (i + p.1), isMock := true })

/-- Handling of one batch (the try/catch body, src/server.js:490-538).
`resp` is the embedder's answer for this batch.  On `.error` the whole
batch gets mock items.  On `.ok vs`: `batch.forEach` reads
`response.data[idx].embedding`; if `vs` is at least as long as the batch
every item succeeds, otherwise the JS forEach throws at `idx = vs.length`
after having already pushed the first `vs.length` items, and the catch
then pushes mock items for the whole batch again. -/
def processBatch (rand : Nat → Nat → ℚ) (i : Nat) (batch : List String)
    (resp : Except String (List (List ℚ))) : List EmbedItem :=
  match resp with
  | .error _ => mockBatchItems rand i batch
  | .ok vs =>
    if batch.length ≤ vs.length then
      batch.enum.map (fun p =>
        { chunkIndex := i + p.1, chunk := p.2,
          embedding := vs.getD p.1 [], isMock := false })
    else
      (batch.take vs.length).enum.map (fun p =>
        ({ chunkIndex := i + p.1, chunk := p.2,
           embedding := vs.getD p.1 [], isMock := false } : EmbedItem)) ++
        mockBatchItems rand i batch

/-- The batching loop `for (let i = 0; i < chunks.length; i += batchSize)`
with `batchSize = 100` (src/server.js:487-539).  `api i batch` models the
OpenAI call for the batch starting at index `i`.  Fuel-driven;
`generateEmbeddings` passes fuel `chunks.length + 1`, which
`generateEmbeddingsLoop_chunks` shows is enough. -/
def generateEmbeddingsLoop (api : Nat → List String → Except String (List (List ℚ)))
    (rand : Nat → Nat → ℚ) (chunks : List String) :
    Nat → Nat → List EmbedItem
  | 0, _ => []
  | fuel + 1, i =>
    if i < chunks.length then
      let batch := (chunks.drop i).take 100
      processBatch rand i batch (api i batch) ++
        generateEmbeddingsLoop api rand chunks fuel (i + 100)
    else []

/-- Model of `generateEmbeddings(chunks)` (src/server.js:464-542).
`api = none` models `this.openai` being unconfigured (no API key): every
chunk gets a mock embedding.  Otherwise the chunks are processed in
batches of 100. -/
def generateEmbeddings (api : Option (Nat → List String → Except String (List (List ℚ))))
    (rand : Nat → Nat → ℚ) (chunks : List String) : List EmbedItem :=
  match api with
  | none => mockBatchItems rand 0 chunks
  | some f => generateEmbeddingsLoop f rand chunks (chunks.length + 1) 0











/-! ## Cosine similarity and search
(src/services/knowledgeBaseService.js) -/

/-- Model of `calculateCosineSimilarity(vecA, vecB)`
(src/services/knowledgeBaseService.js:628-650).  Throws when the lengths
differ; returns 0 when the magnitude is zero.  `Math.sqrt` is modelled by
`Rat.sqrt` (both are approximate square roots of a nonnegative number,
zero exactly on input 0; no claim depends on the returned value). -/
def calculateCosineSimilarity (vecA vecB : List ℚ) : Except String ℚ :=
  if vecA.length ≠ vecB.length then
    .error "Vectors must have the same length"
  else
    let dotProduct := (List.zipWith (· * ·) vecA vecB).sum
    let normA := (vecA.map (fun x => x * x)).sum
    let normB := (vecB.map (fun x => x * x)).sum
    let magnitude := Rat.sqrt normA * Rat.sqrt normB
    if magnitude = 0 then .ok 0 else .ok (dotProduct / magnitude)

/-- A row of the `agents` table (columns used by the service:
`id`, `training_api_uuid`, `creator_id`). -/
structure AgentRow where
  id : Nat
  uuid : String
  creator_id : Nat
deriving DecidableEq, Repr

/-- A row of `agent_training_data` (columns used by the service). -/
structure AtdRow where
  id : Nat
  agent_id : Nat
  title : String
  content : String
  source_type : String
  file_url : String
  created_at : Nat
  embedding_vector : List ℚ
deriving DecidableEq, Repr

/-- A row of `knowledge_sources` (columns used by the service). -/
structure KsRow where
  id : Nat
  agent_id : Nat
  title : String
  file_url : String
  file_type : String
deriving DecidableEq, Repr

/-- Model of `databaseService.getAgentId`: resolve an external agent
identifier to the `agents.id` primary key, `none` when absent.  (The JS
helper first tries a numeric primary-key lookup and otherwise looks up the
`training_api_uuid` column; both resolve through the `agents` table, which
this single lookup models.) -/
def getAgentId (agents : List AgentRow) (agentId : String) : Option Nat :=
  (agents.find? (fun a => a.uuid = agentId)).map (·.id)

/-- The `LEFT JOIN knowledge_sources ks ON atd.file_url = ks.file_url`
of both search queries: each training row paired with every matching
knowledge source, or with `none` when no source matches. -/
def leftJoinKs (atd : List AtdRow) (ks : List KsRow) :
    List (AtdRow × Option KsRow) :=
  atd.flatMap (fun r =>
    match ks.filter (fun k => k.file_url = r.file_url) with
    | [] => [(r, none)]
    | ms => ms.map (fun k => (r, some k)))

/-- The `WHERE atd.agent_id = $n` clause together with the optional
`AND atd.source_type = ANY(...)` document-type filter. -/
def rowMatches (dbAgentId : Nat) (documentTypes : List String)
    (p : AtdRow × Option KsRow) : Bool :=
  p.1.agent_id = dbAgentId &&
    (documentTypes.isEmpty || documentTypes.contains p.1.source_type)

/-- A candidate row together with its computed similarity. -/
structure ScoredRow where
  atd : AtdRow
  ks : Option KsRow
  similarity : ℚ
deriving DecidableEq, Repr

/-- Descending-similarity order used by `ORDER BY similarity DESC` and by
the JS comparator `(a, b) => b.similarity - a.similarity`. -/
def simDesc (a b : ScoredRow) : Prop := b.similarity ≤ a.similarity

instance : DecidableRel simDesc := fun a b =>
  inferInstanceAs (Decidable (b.similarity ≤ a.similarity))

instance : IsTotal ScoredRow simDesc :=
  ⟨fun a b => le_total b.similarity a.similarity⟩

instance : IsTrans ScoredRow simDesc :=
  ⟨fun _ _ _ h1 h2 => le_trans h2 h1⟩

/-- Row-by-row evaluation of a fallible computation over a list, failing
on the first error — how SQL evaluates an expression over every row. -/
def mapExcept (f : α → Except String β) : List α → Except String (List β)
  | [] => .ok []
  | x :: xs =>
    match f x with
    | .error e => .error e
    | .ok y =>
      match mapExcept f xs with
      | .error e => .error e
      | .ok ys => .ok (y :: ys)

/-- The per-row body of the fallback search's `.map` (src/services/
knowledgeBaseService.js:376-396): compute the similarity, returning
`none` (JS `null`) when the computation throws — the surrounding
`try/catch` swallows the error. -/
def scoreRowFallback (queryEmbedding : List ℚ) (p : AtdRow × Option KsRow) :
    Option ScoredRow :=
  match calculateCosineSimilarity queryEmbedding p.1.embedding_vector with
  | .error _ => none
  | .ok s => some ⟨p.1, p.2, s⟩

/-- The in-memory fallback search pipeline (src/services/
knowledgeBaseService.js:348-401): fetch the owner's (type-filtered) rows,
score each (nulls for rows whose scoring threw), drop nulls and
below-threshold rows, sort by similarity descending, truncate to `limit`. -/
def searchFallbackRows (queryEmbedding : List ℚ) (dbAgentId : Nat)
    (documentTypes : List String) (threshold : ℚ) (limit : Nat)
    (ks : List KsRow) (atd : List AtdRow) : List ScoredRow :=
  let rows := (leftJoinKs atd ks).filter (rowMatches dbAgentId documentTypes)
  let scored := rows.map (scoreRowFallback queryEmbedding)
  let kept := scored.filter (fun o =>
    match o with
    | none => false
    | some c => threshold ≤ c.similarity)
  let sorted := kept.reduceOption.insertionSort simDesc
  sorted.take limit

/-- The pgvector search query (src/services/knowledgeBaseService.js:
306-341): `1 - (embedding_vector <=> query)` is cosine similarity, and
pgvector raises an error when the two vectors' dimensions differ, so the
whole query fails on the first mismatched row.  Threshold filter, then
`ORDER BY similarity DESC LIMIT $n`. -/
def searchPgRows (queryEmbedding : List ℚ) (dbAgentId : Nat)
    (documentTypes : List String) (threshold : ℚ) (limit : Nat)
    (ks : List KsRow) (atd : List AtdRow) : Except String (List ScoredRow) :=
  let rows := (leftJoinKs atd ks).filter (rowMatches dbAgentId documentTypes)
  (mapExcept (fun p =>
      match calculateCosineSimilarity queryEmbedding p.1.embedding_vector with
      | .error e => .error e
      | .ok s => .ok (⟨p.1, p.2, s⟩ : ScoredRow)) rows).map
    (fun scored =>
      ((scored.filter (fun c => threshold ≤ c.similarity)).insertionSort
        simDesc).take limit)

/-- The `metadata` object of a search result. -/
structure ResultMeta where
  title : String
  sourceType : String
  fileUrl : String
  createdAt : Nat
deriving DecidableEq, Repr

/-- The optional `document` object of a search result (fields may be null
because of the LEFT JOIN). -/
structure ResultDoc where
  name : Option String
  doctype : Option String
deriving DecidableEq, Repr

/-- A returned search result (src/services/knowledgeBaseService.js:
404-423). -/
structure SearchResult where
  score : ℚ
  documentId : Nat
  chunkId : Nat
  chunk : String
  metadata : ResultMeta
  document : Option ResultDoc
deriving DecidableEq, Repr

/-- The result-shaping `result.rows.map` of `search`. -/
def mkSearchResult (includeContent : Bool) (r : ScoredRow) : SearchResult :=
  { score := r.similarity
    documentId := r.atd.id
    chunkId := r.atd.id
    chunk := r.atd.content
    metadata :=
      { title := r.atd.title, sourceType := r.atd.source_type,
        fileUrl := r.atd.file_url, createdAt := r.atd.created_at }
    document :=
      if includeContent then
        some { name := r.ks.map (·.title), doctype := r.ks.map (·.file_type) }
      else none }

/-- The options object of `search` after destructuring with defaults
(src/services/knowledgeBaseService.js:267-272). -/
structure SearchOptions where
  limit : Nat
  threshold : ℚ
  includeContent : Bool
  documentTypes : List String
deriving DecidableEq, Repr

/-- Model of `search(agentId, query, options)` (src/services/
knowledgeBaseService.js:265-459).  `queryEmbedding` stands for the value
of `generateQueryEmbedding(query)` (an external, possibly mock, vector).
An unknown agent returns an empty result list; otherwise the pgvector or
the in-memory backend runs, and the selected rows are shaped into
`SearchResult`s. -/
def search (hasPgVector : Bool) (agents : List AgentRow) (ks : List KsRow)
    (atd : List AtdRow) (agentId : String) (queryEmbedding : List ℚ)
    (opts : SearchOptions) : Except String (List SearchResult) :=
  match getAgentId agents agentId with
  | none => .ok []
  | some dbAgentId =>
    let rowsE : Except String (List ScoredRow) :=
      if hasPgVector then
        searchPgRows queryEmbedding dbAgentId opts.documentTypes
          opts.threshold opts.limit ks atd
      else
        .ok (searchFallbackRows queryEmbedding dbAgentId opts.documentTypes
          opts.threshold opts.limit ks atd)
    rowsE.map (fun rows => rows.map (mkSearchResult opts.includeContent))

/-! ## Ingestion orchestrator: upload and delete
(src/services/knowledgeBaseService.js:58-240 and 565-620) -/

/-- The persistent stores: the relational tables used by the service and
the S3 bucket (a list of stored object keys). -/
structure DbState where
  agents : List AgentRow
  knowledge_sources : List KsRow
  agent_training_data : List AtdRow
  blobs : List String
  next_agent_id : Nat
  next_ks_id : Nat
  next_atd_id : Nat
deriving DecidableEq, Repr

/-- Model of `databaseService.getOrCreateAgentId`: resolve the
identifier, auto-registering a new agent row when absent.  It runs on the
shared pool, outside the upload's transaction, so its write is applied to
the state immediately. -/
def getOrCreateAgentId (st : DbState) (agentId : String)
    (creator_id : Nat) : Nat × DbState :=
  match getAgentId st.agents agentId with
  | some i => (i, st)
  | none =>
    (st.next_agent_id,
      { st with
          agents := st.agents ++ [⟨st.next_agent_id, agentId, creator_id⟩],
          next_agent_id := st.next_agent_id + 1 })

/-- Failure injection points of `uploadDocument`, all situated after the
S3 blob write (line 97) and inside the relational transaction. -/
inductive UploadFail where
  | atProcess
  | atInsertSource
  | atInsertChunk (i : Nat)
deriving DecidableEq, Repr

/-- The committed relational writes of a successful upload: one
`knowledge_sources` row (RETURNING its id) and one `agent_training_data`
row per chunk, titled `"<name> - Chunk <i+1>"`
(src/services/knowledgeBaseService.js:119-190). -/
def commitUpload (st : DbState) (now : Nat) (dbAgentId : Nat)
    (originalName s3Url sourceType : String)
    (ragEmbeddings : List (String × List ℚ)) : DbState × Except String Nat :=
  let ksId := st.next_ks_id
  let ksRow : KsRow := ⟨ksId, dbAgentId, originalName, s3Url, sourceType⟩
  let newChunks := ragEmbeddings.enum.map (fun p =>
    (⟨st.next_atd_id + p.1, dbAgentId,
      originalName ++ " - Chunk " ++ toString (p.1 + 1), p.2.1, sourceType,
      s3Url, now, p.2.2⟩ : AtdRow))
  ({ st with
      knowledge_sources := st.knowledge_sources ++ [ksRow],
      agent_training_data := st.agent_training_data ++ newChunks,
      next_ks_id := ksId + 1,
      next_atd_id := st.next_atd_id + ragEmbeddings.length },
    .ok ksId)

/-- Model of `uploadDocument(fileBuffer, agentId, originalName, mimetype,
options)` (src/services/knowledgeBaseService.js:58-240).

External collaborators become parameters: `supported` is
`documentProcessor.isSupported`, `s3Key`/`s3Url` are the S3 result for
this upload, `ragEmbeddings` is `processForRAG`'s chunk/embedding list,
and `failAt` injects a failure at one of the post-blob steps.

Sequencing follows the source: the unsupported-type check runs before any
write; agent auto-registration runs on the pool (outside the
transaction); the S3 put happens before the relational inserts; on any
thrown error the transaction is rolled back — the staged
`knowledge_sources` / `agent_training_data` rows disappear — but the S3
object is **not** deleted and the auto-registered agent row persists. -/
def uploadDocument (st : DbState) (now creator_id : Nat)
    (agentUuid originalName : String) (supported : Bool)
    (s3Key s3Url sourceType : String)
    (ragEmbeddings : List (String × List ℚ)) (failAt : Option UploadFail) :
    DbState × Except String Nat :=
  if supported = false then
    (st, .error ("Failed to process document: Unsupported file type: " ++
      originalName))
  else
    let pair := getOrCreateAgentId st agentUuid creator_id
    let dbAgentId := pair.1
    let st1 := pair.2
    let st2 := { st1 with blobs := st1.blobs ++ [s3Key] }
    match failAt with
    | some .atProcess =>
      (st2, .error "Failed to process document: extraction failed")
    | some .atInsertSource =>
      (st2, .error "Failed to process document: insert failed")
    | some (.atInsertChunk i) =>
      if i < ragEmbeddings.length then
        (st2, .error "Failed to process document: chunk insert failed")
      else
        commitUpload st2 now dbAgentId originalName s3Url sourceType
          ragEmbeddings
    | none =>
      commitUpload st2 now dbAgentId originalName s3Url sourceType
        ragEmbeddings

/-- Model of `fileUrl.split(".amazonaws.com/")[1]` followed by the JS
truthiness check `if (s3Key)` (src/services/knowledgeBaseService.js:
590-595): the second split part, unless missing or empty. -/
def s3KeyOfUrl (url : String) : Option String :=
  match (url.splitOn ".amazonaws.com/").get? 1 with
  | none => none
  | some k => if k = "" then none else some k

/-- Model of `deleteDocument(agentId, documentId)` (src/services/
knowledgeBaseService.js:565-620): resolve the agent (error when absent),
look up the document scoped to that agent (error when absent), delete the
S3 object named by the document's URL, then — note — delete the training
rows keyed by `file_url = $1 AND agent_id = $2`, not by document id, and
finally the `knowledge_sources` row itself; all committed together. -/
def deleteDocument (st : DbState) (agentUuid : String) (documentId : Nat) :
    DbState × Except String Bool :=
  match getAgentId st.agents agentUuid with
  | none =>
    (st, .error ("Failed to delete document: Agent not found: " ++ agentUuid))
  | some dbAgentId =>
    match st.knowledge_sources.find?
        (fun k => k.id = documentId && k.agent_id = dbAgentId) with
    | none => (st, .error "Failed to delete document: Document not found")
    | some doc =>
      let fileUrl := doc.file_url
      let blobs1 :=
        match s3KeyOfUrl fileUrl with
        | some key => st.blobs.filter (fun b => b ≠ key)
        | none => st.blobs
      let atd1 := st.agent_training_data.filter
        (fun r => !(r.file_url = fileUrl && r.agent_id = dbAgentId))
      let ks1 := st.knowledge_sources.filter
        (fun k => !(k.id = documentId && k.agent_id = dbAgentId))
      let st1 : DbState := { st with
        blobs := blobs1
        agent_training_data := atd1
        knowledge_sources := ks1 }
      (st1, .ok true)

/-! ## HTTP search entry points
(src/routes/knowledgeBaseRoutes.js:60-96 and the agent-id route variant's
`POST /search`) -/

/-- The relevant request-body fields of `POST /train/search`.  A numeric
field is `none` when absent or unparseable (JS `parseInt`/`parseFloat`
give `NaN` there). -/
structure SearchBody where
  query : String
  limit : Option Nat
  threshold : Option ℚ
  documentTypes : Option (List String)
deriving DecidableEq, Repr

/-- JS `parseFloat(x) || d` / `parseInt(x) || d`: the parsed value unless
it is missing (`NaN`) or `0`, in which case the default applies. -/
def jsNumOr (v : Option ℚ) (d : ℚ) : ℚ :=
  match v with
  | none => d
  | some x => if x = 0 then d else x

/-- JS `parseInt(x) || d` for the limit field. -/
def jsNatOr (v : Option Nat) (d : Nat) : Nat :=
  match v with
  | none => d
  | some x => if x = 0 then d else x

/-- The options built by `POST /train/search` in
src/routes/knowledgeBaseRoutes.js:75-80: default threshold **0.7**. -/
def routeOptionsUser (body : SearchBody) : SearchOptions :=
  { limit := jsNatOr body.limit 10
    threshold := jsNumOr body.threshold (7 / 10)
    includeContent := true
    documentTypes := body.documentTypes.getD [] }

/-- The options built by the agent-id route variant's `POST /train/search`
(lines 75-80 of that file): default threshold **0.5**. -/
def routeOptionsAgent (body : SearchBody) : SearchOptions :=
  { limit := jsNatOr body.limit 10
    threshold := jsNumOr body.threshold (1 / 2)
    includeContent := true
    documentTypes := body.documentTypes.getD [] }

/-- The `POST /train/search` handler of src/routes/knowledgeBaseRoutes.js,
which calls `knowledgeBaseService.search` with `routeOptionsUser`. -/
def handleSearchUser (hasPgVector : Bool) (agents : List AgentRow)
    (ks : List KsRow) (atd : List AtdRow) (ownerId : String)
    (queryEmbedding : List ℚ) (body : SearchBody) :
    Except String (List SearchResult) :=
  search hasPgVector agents ks atd ownerId queryEmbedding
    (routeOptionsUser body)

/-- The `POST /train/search` handler of the agent-id route variant, which
calls the same `knowledgeBaseService.search` with `routeOptionsAgent`. -/
def handleSearchAgent (hasPgVector : Bool) (agents : List AgentRow)
    (ks : List KsRow) (atd : List AtdRow) (ownerId : String)
    (queryEmbedding : List ℚ) (body : SearchBody) :
    Except String (List SearchResult) :=
  search hasPgVector agents ks atd ownerId queryEmbedding
    (routeOptionsAgent body)

/-- Specification-side count of qualifying search candidates: the rows of
the requesting owner (after the type filter) whose similarity to the query
computes successfully and reaches the threshold.  Used only to state that
`limit` truncates after filtering, never before. -/
def qualifyingCount (queryEmbedding : List ℚ) (dbAgentId : Nat)
    (documentTypes : List String) (threshold : ℚ) (ks : List KsRow)
    (atd : List AtdRow) : Nat :=
  (((leftJoinKs atd ks).filter (rowMatches dbAgentId documentTypes)).filter
    (fun p =>
      match calculateCosineSimilarity queryEmbedding p.1.embedding_vector with
      | .ok s => decide (threshold ≤ s)
      | .error _ => false)).length

/-! ## Supporting lemmas -/

/-- The next window start strictly exceeds the current one, without any
hypothesis: `max (start+1) _ ≥ start+1`, so the `nextStart ≤ start`
fallback branch is unreachable. -/
lemma chunkNextStart_gt (content : List Char) (chunkSize overlap : Nat)
    (separators : List (List Char)) (start : Nat) :
    start < chunkNextStart content chunkSize overlap separators start := by
  unfold chunkNextStart
  set e := chunkBestEnd content chunkSize separators start with he
  simp only []
  have h1 : start + 1 ≤ max (start + 1) (e - overlap) := le_max_left _ _
  split
  · omega
  · omega

/-- Fuel adequacy for `chunkLoop`: once the fuel covers the remaining text
length, adding more fuel does not change the result. -/
lemma chunkLoop_fuel_stable (content : List Char) (chunkSize overlap : Nat)
    (separators : List (List Char)) :
    ∀ fuel k start acc, content.length ≤ start + fuel →
      chunkLoop content chunkSize overlap separators (fuel + k) start acc =
        chunkLoop content chunkSize overlap separators fuel start acc := by
  intro fuel
  induction fuel with
  | zero =>
    intro k start acc h
    cases k with
    | zero => rfl
    | succ k =>
      simp only [chunkLoop]
      rw [if_neg (by omega)]
  | succ fuel ih =>
    intro k start acc h
    have hsucc : fuel + 1 + k = (fuel + k) + 1 := by omega
    rw [hsucc]
    simp only [chunkLoop]
    have hnext := chunkNextStart_gt content chunkSize overlap separators start
    split
    · split
      · split
        · rfl
        · exact ih k _ _ (by omega)
      · split
        · rfl
        · exact ih k _ _ (by omega)
    · rfl

/-- Every element of `chunkLoop` is nonempty provided every element of the
accumulator is: pushed chunks pass the `chunk.length > 0` guard. -/
lemma chunkLoop_ne_nil (content : List Char) (chunkSize overlap : Nat)
    (separators : List (List Char)) :
    ∀ fuel start acc, (∀ a ∈ acc, a ≠ []) →
      ∀ c ∈ chunkLoop content chunkSize overlap separators fuel start acc,
        c ≠ [] := by
  intro fuel
  induction fuel with
  | zero => intro start acc hacc c hc; exact hacc c hc
  | succ fuel ih =>
    intro start acc hacc c hc
    simp only [chunkLoop] at hc
    split at hc
    · split at hc
      · rename_i hg
        have hacc1 : ∀ a ∈ acc ++ [jsTrim ((content.take
            (chunkBestEnd content chunkSize separators start)).drop start)],
            a ≠ [] := by
          intro a ha
          rcases List.mem_append.1 ha with h | h
          · exact hacc a h
          · rcases List.mem_singleton.1 h with rfl
            exact List.length_pos.mp hg
        split at hc
        · exact hacc1 c hc
        · exact ih _ _ hacc1 c hc
      · split at hc
        · exact hacc c hc
        · exact ih _ _ hacc c hc
    · exact hacc c hc

lemma mockEmbedding_length (rand : Nat → Nat → ℚ) (i : Nat) :
    (mockEmbedding rand i).length = 1536 := by
  simp [mockEmbedding]

lemma mockBatchItems_chunks (rand : Nat → Nat → ℚ) (i : Nat)
    (batch : List String) :
    (mockBatchItems rand i batch).map (·.chunk) = batch := by
  unfold mockBatchItems
  rw [List.map_map]
  exact List.enum_map_snd batch

lemma processBatch_chunks (rand : Nat → Nat → ℚ) (i : Nat)
    (batch : List String) (resp : Except String (List (List ℚ)))
    (hresp : ∀ vs, resp = .ok vs → batch.length ≤ vs.length) :
    (processBatch rand i batch resp).map (·.chunk) = batch := by
  cases resp with
  | error e => simp only [processBatch]; exact mockBatchItems_chunks rand i batch
  | ok vs =>
    simp only [processBatch]
    rw [if_pos (hresp vs rfl)]
    rw [List.map_map]
    exact List.enum_map_snd batch

/-- With a well-formed embedder (a successful batch call returns at least
one vector per input), the loop's items are in bijection with the chunks
from index `i` on, provided the fuel covers the remaining chunks. -/
lemma generateEmbeddingsLoop_chunks
    (api : Nat → List String → Except String (List (List ℚ)))
    (rand : Nat → Nat → ℚ) (chunks : List String)
    (hapi : ∀ i b vs, api i b = .ok vs → b.length ≤ vs.length) :
    ∀ fuel i, chunks.length ≤ i + fuel →
      (generateEmbeddingsLoop api rand chunks fuel i).map (·.chunk) =
        chunks.drop i := by
  intro fuel
  induction fuel with
  | zero =>
    intro i h
    simp [generateEmbeddingsLoop,
      List.drop_eq_nil_of_le (show chunks.length ≤ i by omega)]
  | succ fuel ih =>
    intro i h
    simp only [generateEmbeddingsLoop]
    split
    · rw [List.map_append,
        processBatch_chunks rand i _ _ (fun vs hvs => hapi i _ vs hvs),
        ih (i + 100) (by omega)]
      rw [← List.drop_drop, List.take_append_drop]
    · rename_i hlt
      simp [List.drop_eq_nil_of_le (by omega : chunks.length ≤ i)]

/-- Mock items always carry a vector of length 1536; non-mock items carry
whatever the provider returned. -/
lemma mem_mockBatchItems_length (rand : Nat → Nat → ℚ) (i : Nat)
    (batch : List String) :
    ∀ item ∈ mockBatchItems rand i batch, item.embedding.length = 1536 := by
  intro item hm
  unfold mockBatchItems at hm
  rcases List.mem_map.1 hm with ⟨p, _, rfl⟩
  exact mockEmbedding_length rand _

lemma mem_processBatch_mock_length (rand : Nat → Nat → ℚ) (i : Nat)
    (batch : List String) (resp : Except String (List (List ℚ))) :
    ∀ item ∈ processBatch rand i batch resp, item.isMock = true →
      item.embedding.length = 1536 := by
  intro item hm hmock
  cases resp with
  | error e =>
    simp only [processBatch] at hm
    exact mem_mockBatchItems_length rand i batch item hm
  | ok vs =>
    simp only [processBatch] at hm
    split at hm
    · rcases List.mem_map.1 hm with ⟨p, _, rfl⟩
      exact Bool.noConfusion hmock
    · rcases List.mem_append.1 hm with h | h
      · rcases List.mem_map.1 h with ⟨p, _, rfl⟩
        exact Bool.noConfusion hmock
      · exact mem_mockBatchItems_length rand i batch item h

lemma mem_generateEmbeddingsLoop_mock_length
    (api : Nat → List String → Except String (List (List ℚ)))
    (rand : Nat → Nat → ℚ) (chunks : List String) :
    ∀ fuel i, ∀ item ∈ generateEmbeddingsLoop api rand chunks fuel i,
      item.isMock = true → item.embedding.length = 1536 := by
  intro fuel
  induction fuel with
  | zero => intro i item hm; simp [generateEmbeddingsLoop] at hm
  | succ fuel ih =>
    intro i item hm hmock
    simp only [generateEmbeddingsLoop] at hm
    split at hm
    · rcases List.mem_append.1 hm with h | h
      · exact mem_processBatch_mock_length rand i _ _ item h hmock
      · exact ih (i + 100) item h hmock
    · simp at hm

lemma mem_leftJoinKs {atd : List AtdRow} {ks : List KsRow}
    {p : AtdRow × Option KsRow} (hp : p ∈ leftJoinKs atd ks) :
    p.1 ∈ atd := by
  unfold leftJoinKs at hp
  rcases List.mem_flatMap.1 hp with ⟨r, hr, hpr⟩
  cases hks : ks.filter (fun k => k.file_url = r.file_url) with
  | nil =>
    rw [hks] at hpr
    rcases List.mem_singleton.1 hpr with rfl
    exact hr
  | cons m ms =>
    rw [hks] at hpr
    rcases List.mem_map.1 hpr with ⟨k, _, rfl⟩
    exact hr

lemma scoreRowFallback_some {queryEmbedding : List ℚ}
    {p : AtdRow × Option KsRow} {x : ScoredRow}
    (h : scoreRowFallback queryEmbedding p = some x) :
    x.atd = p.1 ∧
      calculateCosineSimilarity queryEmbedding p.1.embedding_vector =
        .ok x.similarity := by
  unfold scoreRowFallback at h
  cases hc : calculateCosineSimilarity queryEmbedding p.1.embedding_vector with
  | error e => rw [hc] at h; exact Option.noConfusion h
  | ok s =>
    rw [hc] at h
    rcases Option.some_injective _ h with rfl
    exact ⟨rfl, rfl⟩

lemma calculateCosineSimilarity_ok_length {va vb : List ℚ} {s : ℚ}
    (h : calculateCosineSimilarity va vb = .ok s) : va.length = vb.length := by
  unfold calculateCosineSimilarity at h
  by_cases hlen : va.length ≠ vb.length
  · rw [if_pos hlen] at h
    exact Except.noConfusion h
  · omega

lemma mem_searchFallbackRows {queryEmbedding : List ℚ} {dbAgentId : Nat}
    {documentTypes : List String} {threshold : ℚ} {limit : Nat}
    {ks : List KsRow} {atd : List AtdRow} {x : ScoredRow}
    (hx : x ∈ searchFallbackRows queryEmbedding dbAgentId documentTypes
      threshold limit ks atd) :
    ∃ p ∈ leftJoinKs atd ks,
      rowMatches dbAgentId documentTypes p = true ∧
      scoreRowFallback queryEmbedding p = some x ∧
      threshold ≤ x.similarity := by
  simp only [searchFallbackRows] at hx
  have hx1 := List.mem_of_mem_take hx
  have hx2 := (List.mem_insertionSort simDesc).1 hx1
  have hx3 := List.reduceOption_mem_iff.1 hx2
  have hx4 := List.mem_filter.1 hx3
  rcases hx4 with ⟨hmem, hpred⟩
  have hth : threshold ≤ x.similarity := by
    simpa using hpred
  rcases List.mem_map.1 hmem with ⟨p, hp, hscore⟩
  rcases List.mem_filter.1 hp with ⟨hpj, hpm⟩
  exact ⟨p, hpj, hpm, hscore, hth⟩

lemma mapExcept_ok_forall₂ {α β : Type _} {f : α → Except String β}
    {xs : List α} {ys : List β} (h : mapExcept f xs = .ok ys) :
    List.Forall₂ (fun x y => f x = .ok y) xs ys := by
  induction xs generalizing ys with
  | nil =>
    unfold mapExcept at h
    rcases Except.ok.inj h with rfl
    exact List.Forall₂.nil
  | cons x xs ih =>
    unfold mapExcept at h
    cases hf : f x with
    | error e => rw [hf] at h; exact Except.noConfusion h
    | ok y =>
      rw [hf] at h
      cases hrest : mapExcept f xs with
      | error e => rw [hrest] at h; exact Except.noConfusion h
      | ok ys0 =>
        rw [hrest] at h
        rcases Except.ok.inj h with rfl
        exact List.Forall₂.cons hf (ih hrest)

lemma mem_of_mapExcept_ok {α β : Type _} {f : α → Except String β}
    {xs : List α} {ys : List β} (h : mapExcept f xs = .ok ys) :
    ∀ y ∈ ys, ∃ x ∈ xs, f x = .ok y := by
  have hf := mapExcept_ok_forall₂ h
  clear h
  induction hf with
  | nil => intro y hy; simp at hy
  | cons hfa _ ih =>
    intro y hy
    rcases List.mem_cons.1 hy with rfl | hy2
    · exact ⟨_, List.mem_cons_self _ _, hfa⟩
    · rcases ih y hy2 with ⟨x, hx, hfx⟩
      exact ⟨x, List.mem_cons_of_mem _ hx, hfx⟩

/-- The per-row scoring of the pg backend. -/
lemma searchPgScore_ok {queryEmbedding : List ℚ} {p : AtdRow × Option KsRow}
    {x : ScoredRow}
    (h : (match calculateCosineSimilarity queryEmbedding
        p.1.embedding_vector with
      | .error e => (.error e : Except String ScoredRow)
      | .ok s => .ok ⟨p.1, p.2, s⟩) = .ok x) :
    x.atd = p.1 ∧
      calculateCosineSimilarity queryEmbedding p.1.embedding_vector =
        .ok x.similarity := by
  cases hc : calculateCosineSimilarity queryEmbedding p.1.embedding_vector with
  | error e => rw [hc] at h; exact Except.noConfusion h
  | ok s =>
    rw [hc] at h
    rcases Except.ok.inj h with rfl
    exact ⟨rfl, rfl⟩

/-- The fallback pipeline's kept-list length equals the specification-side
qualifying count. -/
lemma searchFallback_kept_length (queryEmbedding : List ℚ)
    (threshold : ℚ) (rows : List (AtdRow × Option KsRow)) :
    (((rows.map (scoreRowFallback queryEmbedding)).filter (fun o =>
      match o with
      | none => false
      | some c => threshold ≤ c.similarity)).reduceOption).length =
    (rows.filter (fun p =>
      match calculateCosineSimilarity queryEmbedding p.1.embedding_vector with
      | .ok s => decide (threshold ≤ s)
      | .error _ => false)).length := by
  induction rows with
  | nil => rfl
  | cons p rows ih =>
    simp only [List.map_cons]
    cases hc : calculateCosineSimilarity queryEmbedding
        p.1.embedding_vector with
    | error e =>
      have hscore : scoreRowFallback queryEmbedding p = none := by
        unfold scoreRowFallback
        rw [hc]
      rw [hscore]
      rw [List.filter_cons, List.filter_cons]
      simp only [hc]
      simpa using ih
    | ok s =>
      have hscore : scoreRowFallback queryEmbedding p =
          some ⟨p.1, p.2, s⟩ := by
        unfold scoreRowFallback
        rw [hc]
      rw [hscore]
      rw [List.filter_cons, List.filter_cons]
      simp only [hc]
      by_cases hth : threshold ≤ s
      · simp [hth, ih]
      · simp [hth, ih]

/-- The pg pipeline's filtered length equals the specification-side
qualifying count. -/
lemma searchPg_filter_length (queryEmbedding : List ℚ) (threshold : ℚ)
    {rows : List (AtdRow × Option KsRow)} {scored : List ScoredRow}
    (h : mapExcept (fun p =>
      match calculateCosineSimilarity queryEmbedding
          p.1.embedding_vector with
      | .error e => (.error e : Except String ScoredRow)
      | .ok s => .ok ⟨p.1, p.2, s⟩) rows = .ok scored) :
    (scored.filter (fun c => threshold ≤ c.similarity)).length =
    (rows.filter (fun p =>
      match calculateCosineSimilarity queryEmbedding p.1.embedding_vector with
      | .ok s => decide (threshold ≤ s)
      | .error _ => false)).length := by
  have hf := mapExcept_ok_forall₂ h
  clear h
  induction hf with
  | nil => rfl
  | @cons p x rows0 scored0 hfa _ ih =>
    rcases searchPgScore_ok hfa with ⟨hx, hc⟩
    rw [List.filter_cons, List.filter_cons]
    simp only [hc]
    by_cases hth : threshold ≤ x.similarity
    · simp [hth, ih]
    · simp [hth, ih]

lemma reduceOption_filter_comm (threshold : ℚ)
    (l : List (Option ScoredRow)) :
    (l.filter (fun o =>
      match o with
      | none => false
      | some c => threshold ≤ c.similarity)).reduceOption =
      l.reduceOption.filter (fun c => threshold ≤ c.similarity) := by
  induction l with
  | nil => rfl
  | cons o l ih =>
    cases o with
    | none => simpa using ih
    | some c =>
      by_cases hth : threshold ≤ c.similarity
      · simp [hth, ih]
      · simp [hth, ih]

/-- Both search backends produce, from some list `scored` of successfully
scored candidate rows of the requesting owner, exactly
`take limit (sort (filter threshold scored))` shaped into results. -/
lemma search_ok_decompose (hasPgVector : Bool) (agents : List AgentRow)
    (ks : List KsRow) (atd : List AtdRow) (agentId : String)
    (queryEmbedding : List ℚ) (opts : SearchOptions) (a : Nat)
    (res : List SearchResult)
    (hA : getAgentId agents agentId = some a)
    (hok : search hasPgVector agents ks atd agentId queryEmbedding opts =
      .ok res) :
    ∃ scored : List ScoredRow,
      res = ((((scored.filter (fun c => opts.threshold ≤ c.similarity)
          )).insertionSort simDesc).take opts.limit).map
        (mkSearchResult opts.includeContent) ∧
      (scored.filter (fun c => opts.threshold ≤ c.similarity)).length =
        qualifyingCount queryEmbedding a opts.documentTypes opts.threshold
          ks atd ∧
      ∀ x ∈ scored, ∃ p ∈ leftJoinKs atd ks,
        rowMatches a opts.documentTypes p = true ∧ x.atd = p.1 ∧
        calculateCosineSimilarity queryEmbedding p.1.embedding_vector =
          .ok x.similarity := by
  unfold search at hok
  rw [hA] at hok
  cases hasPgVector with
  | false =>
    simp only [if_neg Bool.false_ne_true, Except.map] at hok
    rcases Except.ok.inj hok with rfl
    refine ⟨(((leftJoinKs atd ks).filter
      (rowMatches a opts.documentTypes)).map
        (scoreRowFallback queryEmbedding)).reduceOption, ?_, ?_, ?_⟩
    · simp only [searchFallbackRows]
      rw [reduceOption_filter_comm]
    · rw [← reduceOption_filter_comm]
      exact searchFallback_kept_length queryEmbedding opts.threshold _
    · intro x hx
      rcases List.reduceOption_mem_iff.1 hx with hx2
      rcases List.mem_map.1 hx2 with ⟨p, hp, hscore⟩
      rcases List.mem_filter.1 hp with ⟨hpj, hpm⟩
      rcases scoreRowFallback_some hscore with ⟨hatd, hcalc⟩
      exact ⟨p, hpj, hpm, hatd, hcalc⟩
  | true =>
    simp only [searchPgRows] at hok
    cases hmE : mapExcept (fun p =>
        match calculateCosineSimilarity queryEmbedding
            p.1.embedding_vector with
        | .error e => (.error e : Except String ScoredRow)
        | .ok s => .ok ⟨p.1, p.2, s⟩)
        ((leftJoinKs atd ks).filter (rowMatches a opts.documentTypes)) with
    | error e =>
      rw [hmE] at hok
      simp [Except.map] at hok
    | ok scored =>
      rw [hmE] at hok
      simp only [Except.map] at hok
      rcases Except.ok.inj hok with rfl
      refine ⟨scored, rfl, searchPg_filter_length queryEmbedding
        opts.threshold hmE, ?_⟩
      intro x hx
      rcases mem_of_mapExcept_ok hmE x hx with ⟨p, hp, hfp⟩
      rcases List.mem_filter.1 hp with ⟨hpj, hpm⟩
      rcases searchPgScore_ok hfp with ⟨hatd, hcalc⟩
      exact ⟨p, hpj, hpm, hatd, hcalc⟩

lemma rowMatches_agent {dbAgentId : Nat} {documentTypes : List String}
    {p : AtdRow × Option KsRow}
    (h : rowMatches dbAgentId documentTypes p = true) :
    p.1.agent_id = dbAgentId := by
  unfold rowMatches at h
  rw [Bool.and_eq_true] at h
  rcases h with ⟨h1, _⟩
  exact of_decide_eq_true h1

/-! ## Claim theorems -/

/-- C5: for every input text and every `chunkSize ≥ 1` and `overlap ≥ 0`,
`createChunks` terminates in a bounded number of iterations: the window
start strictly increases on every loop iteration (first conjunct, even for
adversarial inputs where no separator matches), and consequently the loop
is insensitive to any iteration budget of at least `content.length`
(second conjunct: the fuelled loop has stabilised by `content.length`
iterations). -/
theorem C5_chunking_terminates (content : List Char)
    (chunkSize overlap : Nat) (separators : List (List Char)) (start : Nat)
    (hsize : 1 ≤ chunkSize) :
    start < chunkNextStart content chunkSize overlap separators start ∧
    ∀ fuel acc, content.length ≤ fuel →
      chunkLoop content chunkSize overlap separators fuel 0 acc =
        chunkLoop content chunkSize overlap separators content.length 0 acc := by
  refine ⟨chunkNextStart_gt content chunkSize overlap separators start, ?_⟩
  intro fuel acc hf
  have h2 : content.length + (fuel - content.length) = fuel := by omega
  rw [← h2]
  exact chunkLoop_fuel_stable content chunkSize overlap separators
    content.length (fuel - content.length) 0 acc (by omega)

/-- Witness for C5 at a concrete input. -/
theorem C5_chunking_terminates_witness :
    0 < chunkNextStart ['a', 'b', 'c'] 1000 200 defaultSeparators 0 ∧
    ∀ fuel acc, (['a', 'b', 'c'] : List Char).length ≤ fuel →
      chunkLoop ['a', 'b', 'c'] 1000 200 defaultSeparators fuel 0 acc =
        chunkLoop ['a', 'b', 'c'] 1000 200 defaultSeparators
          (['a', 'b', 'c'] : List Char).length 0 acc :=
  C5_chunking_terminates ['a', 'b', 'c'] 1000 200 defaultSeparators 0
    (by decide)

/-- Counterexample to C6 as stated: for the two-character text `" a"`
(length ≤ chunkSize) the short-circuit path of `createChunks` returns the
text verbatim, not trimmed, so the result is not `[trim(text)]`. -/
theorem C6_counterexample :
    createChunks [' ', 'a'] 1000 200 defaultSeparators = [[' ', 'a']] ∧
    jsTrim [' ', 'a'] = ['a'] ∧
    createChunks [' ', 'a'] 1000 200 defaultSeparators ≠
      [jsTrim [' ', 'a']] := by decide

/-- C6 (amended): for every text with `len(text) ≤ chunkSize`,
`createChunks` returns exactly the single-element sequence `[text]` — the
text verbatim, without trimming. -/
theorem C6_short_input (content : List Char) (chunkSize overlap : Nat)
    (separators : List (List Char)) (h : content.length ≤ chunkSize) :
    createChunks content chunkSize overlap separators = [content] := by
  unfold createChunks
  rw [if_pos h]

/-- Witness for C6 (amended) at a concrete input. -/
theorem C6_short_input_witness :
    createChunks ['h', 'i'] 1000 200 defaultSeparators = [['h', 'i']] :=
  C6_short_input ['h', 'i'] 1000 200 defaultSeparators (by decide)

/-- Counterexample to C7 as stated: on the empty text the short-circuit
path emits the empty string itself, so the returned sequence contains an
empty element. -/
theorem C7_counterexample :
    [] ∈ createChunks [] 1000 200 defaultSeparators := by decide

/-- C7 (amended): for every nonempty input text, no element of
`createChunks` is the empty string — the windowed path trims each chunk
and only emits it when nonempty, and the short-circuit path returns the
(nonempty) text itself.  Only the empty input produces `[""]`. -/
theorem C7_no_empty_chunks (content : List Char) (chunkSize overlap : Nat)
    (separators : List (List Char)) (h : content ≠ []) :
    ∀ c ∈ createChunks content chunkSize overlap separators, c ≠ [] := by
  intro c hc
  unfold createChunks at hc
  split at hc
  · rcases List.mem_singleton.1 hc with rfl
    exact h
  · exact chunkLoop_ne_nil content chunkSize overlap separators _ 0 []
      (by simp) c hc

/-- Witness for C7 (amended) at a concrete input and a concrete returned
chunk. -/
theorem C7_no_empty_chunks_witness :
    (['x', ' ', 'y'] : List Char) ∈
      createChunks ['x', ' ', 'y'] 1000 200 defaultSeparators ∧
    (['x', ' ', 'y'] : List Char) ≠ [] :=
  ⟨by decide,
    C7_no_empty_chunks ['x', ' ', 'y'] 1000 200 defaultSeparators
      (by decide) ['x', ' ', 'y'] (by decide)⟩

/-- C4: `generateEmbeddings` returns one item per input chunk in order
(`result[i]` corresponds to `chunks[i]`), for any configuration and any
batch outcomes — an unconfigured embedder or a failed batch yields mock
items without aborting later batches — and every mock (degraded) item
carries a fallback vector of the declared dimensionality 1536.  The only
assumption is the embedder's contract: a *successful* batch call returns
at least one vector per input of that batch. -/
theorem C4_embed_many_correspondence
    (api : Option (Nat → List String → Except String (List (List ℚ))))
    (rand : Nat → Nat → ℚ) (chunks : List String)
    (hapi : ∀ f i b vs, api = some f → f i b = .ok vs →
      b.length ≤ vs.length) :
    ((generateEmbeddings api rand chunks).map (·.chunk) = chunks) ∧
    (generateEmbeddings api rand chunks).length = chunks.length ∧
    ∀ item ∈ generateEmbeddings api rand chunks, item.isMock = true →
      item.embedding.length = 1536 := by
  have hchunks : (generateEmbeddings api rand chunks).map (·.chunk) =
      chunks := by
    cases api with
    | none => exact mockBatchItems_chunks rand 0 chunks
    | some f =>
      have := generateEmbeddingsLoop_chunks f rand chunks
        (fun i b vs hok => hapi f i b vs rfl hok) (chunks.length + 1) 0
        (by omega)
      simpa using this
  refine ⟨hchunks, ?_, ?_⟩
  · have := congrArg List.length hchunks
    simpa using this
  · cases api with
    | none =>
      intro item hm _
      exact mem_mockBatchItems_length rand 0 chunks item hm
    | some f =>
      intro item hm hmock
      exact mem_generateEmbeddingsLoop_mock_length f rand chunks
        (chunks.length + 1) 0 item hm hmock

/-- Witness for C4 at a concrete input whose single batch call fails:
the output still corresponds one-to-one to the input. -/
theorem C4_embed_many_correspondence_witness :
    ((generateEmbeddings
        (some (fun _ _ => (.error "boom" : Except String (List (List ℚ)))))
        (fun _ _ => 0) ["hello", "world"]).map (·.chunk) =
      ["hello", "world"]) ∧
    (generateEmbeddings
        (some (fun _ _ => (.error "boom" : Except String (List (List ℚ)))))
        (fun _ _ => 0) ["hello", "world"]).length = 2 ∧
    ∀ item ∈ generateEmbeddings
        (some (fun _ _ => (.error "boom" : Except String (List (List ℚ)))))
        (fun _ _ => 0) ["hello", "world"], item.isMock = true →
      item.embedding.length = 1536 :=
  C4_embed_many_correspondence
    (some (fun _ _ => (.error "boom" : Except String (List (List ℚ)))))
    (fun _ _ => 0) ["hello", "world"]
    (fun f i b vs hf hok => by
      cases hf
      exact Except.noConfusion hok)

/-- C1: under either backend, `search` for an owner that resolves to
database id `a` only returns results backed by `agent_training_data` rows
with `agent_id = a` — never a chunk of any other owner. -/
theorem C1_search_owner_isolation (hasPgVector : Bool)
    (agents : List AgentRow) (ks : List KsRow) (atd : List AtdRow)
    (agentId : String) (queryEmbedding : List ℚ) (opts : SearchOptions)
    (a : Nat) (res : List SearchResult)
    (hA : getAgentId agents agentId = some a)
    (hok : search hasPgVector agents ks atd agentId queryEmbedding opts =
      .ok res) :
    ∀ r ∈ res, ∃ row ∈ atd, row.agent_id = a ∧
      r.chunkId = row.id ∧ r.chunk = row.content := by
  intro r hr
  rcases search_ok_decompose hasPgVector agents ks atd agentId queryEmbedding
    opts a res hA hok with ⟨scored, hres, _, hmem⟩
  subst hres
  rcases List.mem_map.1 hr with ⟨x, hx, rfl⟩
  have hx2 : x ∈ scored := by
    have h1 := List.mem_of_mem_take hx
    have h2 := (List.mem_insertionSort simDesc).1 h1
    exact (List.mem_filter.1 h2).1
  rcases hmem x hx2 with ⟨p, hp, hpm, hatd, _⟩
  refine ⟨p.1, mem_leftJoinKs hp, rowMatches_agent hpm, ?_, ?_⟩
  · simp [mkSearchResult, hatd]
  · simp [mkSearchResult, hatd]

/-- Witness for C1 at a concrete one-row store under the fallback
backend, instantiated at the concrete returned result. -/
theorem C1_search_owner_isolation_witness :
    ∃ row ∈ [(⟨5, 1, "doc.txt - Chunk 1", "hello world", "text",
        "https://b.s3.amazonaws.com/k", 0, [0]⟩ : AtdRow)],
      row.agent_id = 1 ∧
      (mkSearchResult true
        ⟨⟨5, 1, "doc.txt - Chunk 1", "hello world", "text",
          "https://b.s3.amazonaws.com/k", 0, [0]⟩, none, 0⟩).chunkId =
        row.id ∧
      (mkSearchResult true
        ⟨⟨5, 1, "doc.txt - Chunk 1", "hello world", "text",
          "https://b.s3.amazonaws.com/k", 0, [0]⟩, none, 0⟩).chunk =
        row.content :=
  C1_search_owner_isolation false [⟨1, "agent-a", 7⟩] []
    [⟨5, 1, "doc.txt - Chunk 1", "hello world", "text",
      "https://b.s3.amazonaws.com/k", 0, [0]⟩]
    "agent-a" [0] ⟨10, 0, true, []⟩ 1 _
    (by simp [getAgentId])
    (by simp [search, getAgentId, searchFallbackRows, leftJoinKs,
      rowMatches, scoreRowFallback, calculateCosineSimilarity,
      List.insertionSort, List.orderedInsert, Except.map])
    (mkSearchResult true
      ⟨⟨5, 1, "doc.txt - Chunk 1", "hello world", "text",
        "https://b.s3.amazonaws.com/k", 0, [0]⟩, none, 0⟩)
    (List.mem_singleton.2 rfl)

/-- Counterexample to C3 as stated: with a stored chunk whose embedding
has 2 components and a 1-component query embedding, the fallback search
does **not** fail — the per-chunk `try/catch` swallows the
dimension-mismatch error thrown by `calculateCosineSimilarity` and the
chunk is silently skipped, yielding `ok []`. -/
theorem C3_counterexample :
    calculateCosineSimilarity [0] [(0 : ℚ), 0] =
      .error "Vectors must have the same length" ∧
    search false [⟨1, "agent-a", 7⟩] []
      [⟨9, 1, "t", "mismatch", "text", "u", 0, [0, 0]⟩]
      "agent-a" [0] ⟨10, 0, true, []⟩ = .ok [] := by
  constructor
  · rfl
  · simp [search, getAgentId, searchFallbackRows, leftJoinKs, rowMatches,
      scoreRowFallback, calculateCosineSimilarity, List.insertionSort,
      Except.map]

/-- C3 (amended): `calculateCosineSimilarity` does throw a hard
dimension-mismatch error, but the fallback search catches per-chunk
errors: a stored chunk whose embedding length differs from the query's is
silently skipped — the search still succeeds and every returned result is
backed by a row whose embedding length equals the query's. -/
theorem C3_dimension_mismatch_swallowed (agents : List AgentRow)
    (ks : List KsRow) (atd : List AtdRow) (agentId : String)
    (queryEmbedding : List ℚ) (opts : SearchOptions) (va vb : List ℚ)
    (hlen : va.length ≠ vb.length) :
    calculateCosineSimilarity va vb =
      .error "Vectors must have the same length" ∧
    ∃ res, search false agents ks atd agentId queryEmbedding opts =
        .ok res ∧
      ∀ r ∈ res, ∃ row ∈ atd,
        row.embedding_vector.length = queryEmbedding.length ∧
        r.chunkId = row.id ∧ r.chunk = row.content := by
  constructor
  · unfold calculateCosineSimilarity
    rw [if_pos hlen]
  · cases hA : getAgentId agents agentId with
    | none =>
      refine ⟨[], ?_, by simp⟩
      unfold search
      rw [hA]
    | some a =>
      have hok : search false agents ks atd agentId queryEmbedding opts =
          .ok ((searchFallbackRows queryEmbedding a opts.documentTypes
            opts.threshold opts.limit ks atd).map
              (mkSearchResult opts.includeContent)) := by
        unfold search
        rw [hA]
        rfl
      refine ⟨_, hok, ?_⟩
      intro r hr
      rcases search_ok_decompose false agents ks atd agentId queryEmbedding
        opts a _ hA hok with ⟨scored, hres, _, hmem⟩
      rw [hres] at hr
      rcases List.mem_map.1 hr with ⟨x, hx, rfl⟩
      have hx2 : x ∈ scored := by
        have h1 := List.mem_of_mem_take hx
        have h2 := (List.mem_insertionSort simDesc).1 h1
        exact (List.mem_filter.1 h2).1
      rcases hmem x hx2 with ⟨p, hp, _, hatd, hcalc⟩
      refine ⟨p.1, mem_leftJoinKs hp,
        (calculateCosineSimilarity_ok_length hcalc).symm, ?_, ?_⟩
      · simp [mkSearchResult, hatd]
      · simp [mkSearchResult, hatd]

/-- Witness for C3 (amended) at a concrete store holding one mismatched
chunk. -/
theorem C3_dimension_mismatch_swallowed_witness :
    calculateCosineSimilarity [0] [(0 : ℚ), 0] =
      .error "Vectors must have the same length" ∧
    ∃ res, search false [⟨1, "agent-b", 7⟩] []
        [⟨9, 1, "t", "mismatch", "text", "u", 0, [0, 0]⟩]
        "agent-b" [0] ⟨10, 0, true, []⟩ = .ok res ∧
      ∀ r ∈ res, ∃ row ∈ [(⟨9, 1, "t", "mismatch", "text", "u", 0,
          [0, 0]⟩ : AtdRow)],
        row.embedding_vector.length = ([(0 : ℚ)]).length ∧
        r.chunkId = row.id ∧ r.chunk = row.content :=
  C3_dimension_mismatch_swallowed [⟨1, "agent-b", 7⟩] []
    [⟨9, 1, "t", "mismatch", "text", "u", 0, [0, 0]⟩]
    "agent-b" [0] ⟨10, 0, true, []⟩ [0] [0, 0] (by decide)

/-- C8: under either backend a successful `search` (for a resolvable
owner) returns only results at or above the threshold, in non-increasing
similarity order, and the `limit` truncation is applied to the full
sorted, threshold-filtered candidate list — never before filtering or
sorting: the result is a `take limit` prefix of a sorted full list whose
length is exactly the number of qualifying candidates. -/
theorem C8_rank_contract (hasPgVector : Bool) (agents : List AgentRow)
    (ks : List KsRow) (atd : List AtdRow) (agentId : String)
    (queryEmbedding : List ℚ) (opts : SearchOptions) (a : Nat)
    (res : List SearchResult)
    (hA : getAgentId agents agentId = some a)
    (hok : search hasPgVector agents ks atd agentId queryEmbedding opts =
      .ok res) :
    (∀ r ∈ res, opts.threshold ≤ r.score) ∧
    List.Sorted (fun r1 r2 => r2.score ≤ r1.score) res ∧
    ∃ full : List SearchResult,
      res = full.take opts.limit ∧
      List.Sorted (fun r1 r2 => r2.score ≤ r1.score) full ∧
      (∀ r ∈ full, opts.threshold ≤ r.score) ∧
      full.length = qualifyingCount queryEmbedding a opts.documentTypes
        opts.threshold ks atd := by
  rcases search_ok_decompose hasPgVector agents ks atd agentId queryEmbedding
    opts a res hA hok with ⟨scored, hres, hlen, _⟩
  subst hres
  have hsorted : ((scored.filter (fun c => opts.threshold ≤ c.similarity)
      ).insertionSort simDesc).Sorted simDesc :=
    List.sorted_insertionSort simDesc _
  have hfull_sorted : (((scored.filter
      (fun c => opts.threshold ≤ c.similarity)).insertionSort
        simDesc).map (mkSearchResult opts.includeContent)).Sorted
      (fun r1 r2 => r2.score ≤ r1.score) :=
    List.Pairwise.map _ (fun _ _ h => h) hsorted
  have hth_full : ∀ r ∈ ((scored.filter
      (fun c => opts.threshold ≤ c.similarity)).insertionSort
        simDesc).map (mkSearchResult opts.includeContent),
      opts.threshold ≤ r.score := by
    intro r hr
    rcases List.mem_map.1 hr with ⟨x, hx, rfl⟩
    have h1 := (List.mem_insertionSort simDesc).1 hx
    have h2 := (List.mem_filter.1 h1).2
    exact of_decide_eq_true h2
  refine ⟨?_, ?_, _, List.map_take _ _ _, hfull_sorted, hth_full, ?_⟩
  · intro r hr
    rcases List.mem_map.1 hr with ⟨x, hx, rfl⟩
    exact hth_full _ (List.mem_map.2 ⟨x, List.mem_of_mem_take hx, rfl⟩)
  · rw [List.map_take]
    exact hfull_sorted.sublist (List.take_sublist _ _)
  · rw [List.length_map, List.length_insertionSort]
    exact hlen

/-- Witness for C8 at a concrete one-row store under the fallback
backend. -/
theorem C8_rank_contract_witness :
    (∀ r ∈ [mkSearchResult true
        ⟨⟨6, 2, "n.txt - Chunk 1", "welcome", "text", "u2", 0, [0]⟩,
          none, 0⟩], (0 : ℚ) ≤ r.score) ∧
    List.Sorted (fun r1 r2 => r2.score ≤ r1.score)
      [mkSearchResult true
        ⟨⟨6, 2, "n.txt - Chunk 1", "welcome", "text", "u2", 0, [0]⟩,
          none, 0⟩] ∧
    ∃ full : List SearchResult,
      [mkSearchResult true
        ⟨⟨6, 2, "n.txt - Chunk 1", "welcome", "text", "u2", 0, [0]⟩,
          none, 0⟩] = full.take 10 ∧
      List.Sorted (fun r1 r2 => r2.score ≤ r1.score) full ∧
      (∀ r ∈ full, (0 : ℚ) ≤ r.score) ∧
      full.length = qualifyingCount [0] 2 [] 0 []
        [⟨6, 2, "n.txt - Chunk 1", "welcome", "text", "u2", 0, [0]⟩] := by
  have h := C8_rank_contract false [⟨2, "agent-c", 8⟩] []
    [⟨6, 2, "n.txt - Chunk 1", "welcome", "text", "u2", 0, [0]⟩]
    "agent-c" [0] ⟨10, 0, true, []⟩ 2
    [mkSearchResult true
      ⟨⟨6, 2, "n.txt - Chunk 1", "welcome", "text", "u2", 0, [0]⟩,
        none, 0⟩]
    (by simp [getAgentId])
    (by simp [search, getAgentId, searchFallbackRows, leftJoinKs,
      rowMatches, scoreRowFallback, calculateCosineSimilarity,
      List.insertionSort, List.orderedInsert, Except.map])
  exact h

/-- C9: when the caller supplies no threshold, the two otherwise-identical
`POST /search` entry points apply different default similarity thresholds
— 0.7 in src/routes/knowledgeBaseRoutes.js and 0.5 in the agent-id route
variant — before invoking the same underlying
`knowledgeBaseService.search`. -/
theorem C9_route_threshold_defaults (body : SearchBody)
    (hnone : body.threshold = none) :
    (routeOptionsUser body).threshold = 7 / 10 ∧
    (routeOptionsAgent body).threshold = 1 / 2 ∧
    (routeOptionsUser body).threshold ≠ (routeOptionsAgent body).threshold ∧
    ∀ (hasPgVector : Bool) (agents : List AgentRow) (ks : List KsRow)
      (atd : List AtdRow) (ownerId : String) (queryEmbedding : List ℚ),
      handleSearchUser hasPgVector agents ks atd ownerId queryEmbedding
          body =
        search hasPgVector agents ks atd ownerId queryEmbedding
          (routeOptionsUser body) ∧
      handleSearchAgent hasPgVector agents ks atd ownerId queryEmbedding
          body =
        search hasPgVector agents ks atd ownerId queryEmbedding
          (routeOptionsAgent body) := by
  refine ⟨?_, ?_, ?_, ?_⟩
  · simp [routeOptionsUser, jsNumOr, hnone]
  · simp [routeOptionsAgent, jsNumOr, hnone]
  · simp only [routeOptionsUser, routeOptionsAgent, jsNumOr, hnone]
    norm_num
  · intro hasPgVector agents ks atd ownerId queryEmbedding
    exact ⟨rfl, rfl⟩

/-- Witness for C9 at a concrete thresholdless request body. -/
theorem C9_route_threshold_defaults_witness :
    (routeOptionsUser ⟨"refund policy", none, none, none⟩).threshold =
      7 / 10 ∧
    (routeOptionsAgent ⟨"refund policy", none, none, none⟩).threshold =
      1 / 2 ∧
    (routeOptionsUser ⟨"refund policy", none, none, none⟩).threshold ≠
      (routeOptionsAgent ⟨"refund policy", none, none, none⟩).threshold ∧
    ∀ (hasPgVector : Bool) (agents : List AgentRow) (ks : List KsRow)
      (atd : List AtdRow) (ownerId : String) (queryEmbedding : List ℚ),
      handleSearchUser hasPgVector agents ks atd ownerId queryEmbedding
          ⟨"refund policy", none, none, none⟩ =
        search hasPgVector agents ks atd ownerId queryEmbedding
          (routeOptionsUser ⟨"refund policy", none, none, none⟩) ∧
      handleSearchAgent hasPgVector agents ks atd ownerId queryEmbedding
          ⟨"refund policy", none, none, none⟩ =
        search hasPgVector agents ks atd ownerId queryEmbedding
          (routeOptionsAgent ⟨"refund policy", none, none, none⟩) :=
  C9_route_threshold_defaults ⟨"refund policy", none, none, none⟩ rfl

lemma getOrCreateAgentId_preserves (st : DbState) (agentId : String)
    (creator_id : Nat) :
    (getOrCreateAgentId st agentId creator_id).2.knowledge_sources =
        st.knowledge_sources ∧
    (getOrCreateAgentId st agentId creator_id).2.agent_training_data =
        st.agent_training_data ∧
    (getOrCreateAgentId st agentId creator_id).2.blobs = st.blobs := by
  unfold getOrCreateAgentId
  cases getAgentId st.agents agentId <;> simp

/-- Counterexample to C2 as stated: injecting a failure at the first
chunk insert (after the blob write) rolls back the relational rows, but
the blob object is **not** deleted — it remains in the blob store. -/
theorem C2_counterexample :
    (uploadDocument ⟨[⟨1, "agent-a", 7⟩], [], [], [], 2, 1, 1⟩ 0 7
        "agent-a" "f.txt" true "k1" "https://b.s3.amazonaws.com/k1" "text"
        [("hello", [0])] (some (.atInsertChunk 0))).1.blobs = ["k1"] ∧
    (∃ m, (uploadDocument ⟨[⟨1, "agent-a", 7⟩], [], [], [], 2, 1, 1⟩ 0 7
        "agent-a" "f.txt" true "k1" "https://b.s3.amazonaws.com/k1" "text"
        [("hello", [0])] (some (.atInsertChunk 0))).2 = .error m) ∧
    (uploadDocument ⟨[⟨1, "agent-a", 7⟩], [], [], [], 2, 1, 1⟩ 0 7
        "agent-a" "f.txt" true "k1" "https://b.s3.amazonaws.com/k1" "text"
        [("hello", [0])] (some (.atInsertChunk 0))).1.knowledge_sources =
      [] ∧
    (uploadDocument ⟨[⟨1, "agent-a", 7⟩], [], [], [], 2, 1, 1⟩ 0 7
        "agent-a" "f.txt" true "k1" "https://b.s3.amazonaws.com/k1" "text"
        [("hello", [0])] (some (.atInsertChunk 0))).1.agent_training_data =
      [] := by
  refine ⟨?_, ⟨"Failed to process document: chunk insert failed", ?_⟩,
    ?_, ?_⟩ <;>
    simp [uploadDocument, getOrCreateAgentId, getAgentId]

/-- C2 (amended): if any post-blob step of `uploadDocument` fails, the
relational transaction is rolled back — no `knowledge_sources` row and no
`agent_training_data` row from the attempt remains — but the blob written
to S3 before the failure is **not** compensated: it stays in the blob
store. -/
theorem C2_rollback_keeps_blob (st : DbState) (now creator_id : Nat)
    (agentUuid originalName s3Key s3Url sourceType : String)
    (rag : List (String × List ℚ)) (f : UploadFail)
    (hfail : f = .atProcess ∨ f = .atInsertSource ∨
      ∃ i, f = .atInsertChunk i ∧ i < rag.length) :
    (∃ m, (uploadDocument st now creator_id agentUuid originalName true
        s3Key s3Url sourceType rag (some f)).2 = .error m) ∧
    (uploadDocument st now creator_id agentUuid originalName true s3Key
        s3Url sourceType rag (some f)).1.knowledge_sources =
      st.knowledge_sources ∧
    (uploadDocument st now creator_id agentUuid originalName true s3Key
        s3Url sourceType rag (some f)).1.agent_training_data =
      st.agent_training_data ∧
    (uploadDocument st now creator_id agentUuid originalName true s3Key
        s3Url sourceType rag (some f)).1.blobs = st.blobs ++ [s3Key] := by
  rcases getOrCreateAgentId_preserves st agentUuid creator_id with
    ⟨hks, hatd, hblobs⟩
  rcases hfail with rfl | rfl | ⟨i, rfl, hi⟩
  · refine ⟨⟨"Failed to process document: extraction failed", ?_⟩,
      ?_, ?_, ?_⟩ <;>
      simp [uploadDocument, hks, hatd, hblobs]
  · refine ⟨⟨"Failed to process document: insert failed", ?_⟩,
      ?_, ?_, ?_⟩ <;>
      simp [uploadDocument, hks, hatd, hblobs]
  · refine ⟨⟨"Failed to process document: chunk insert failed", ?_⟩,
      ?_, ?_, ?_⟩ <;>
      simp [uploadDocument, hi, hks, hatd, hblobs]

/-- Witness for C2 (amended): failure injected at the extraction step of
a concrete upload. -/
theorem C2_rollback_keeps_blob_witness :
    (∃ m, (uploadDocument ⟨[⟨3, "agent-d", 9⟩], [], [], ["old"], 4, 1, 1⟩
        5 9 "agent-d" "g.txt" true "k2" "https://b.s3.amazonaws.com/k2"
        "text" [("hi", [0])] (some .atProcess)).2 = .error m) ∧
    (uploadDocument ⟨[⟨3, "agent-d", 9⟩], [], [], ["old"], 4, 1, 1⟩
        5 9 "agent-d" "g.txt" true "k2" "https://b.s3.amazonaws.com/k2"
        "text" [("hi", [0])] (some .atProcess)).1.knowledge_sources =
      [] ∧
    (uploadDocument ⟨[⟨3, "agent-d", 9⟩], [], [], ["old"], 4, 1, 1⟩
        5 9 "agent-d" "g.txt" true "k2" "https://b.s3.amazonaws.com/k2"
        "text" [("hi", [0])] (some .atProcess)).1.agent_training_data =
      [] ∧
    (uploadDocument ⟨[⟨3, "agent-d", 9⟩], [], [], ["old"], 4, 1, 1⟩
        5 9 "agent-d" "g.txt" true "k2" "https://b.s3.amazonaws.com/k2"
        "text" [("hi", [0])] (some .atProcess)).1.blobs = ["old", "k2"] :=
  C2_rollback_keeps_blob ⟨[⟨3, "agent-d", 9⟩], [], [], ["old"], 4, 1, 1⟩
    5 9 "agent-d" "g.txt" "k2" "https://b.s3.amazonaws.com/k2" "text"
    [("hi", [0])] .atProcess (Or.inl rfl)

/-- C10: `deleteDocument` removes training rows keyed by the document's
`file_url` (scoped to the owner), not by document id: exactly the owner's
rows sharing that URL are removed — including chunks of a different
document of the same owner sharing the URL — and rows of other owners are
untouched. -/
theorem C10_delete_by_file_url (st : DbState) (agentUuid : String)
    (documentId : Nat) (a : Nat) (doc : KsRow)
    (hA : getAgentId st.agents agentUuid = some a)
    (hdoc : st.knowledge_sources.find?
      (fun k => k.id = documentId && k.agent_id = a) = some doc) :
    (deleteDocument st agentUuid documentId).2 = .ok true ∧
    (deleteDocument st agentUuid documentId).1.agent_training_data =
      st.agent_training_data.filter
        (fun r => !(r.file_url = doc.file_url && r.agent_id = a)) ∧
    (∀ row ∈ st.agent_training_data, row.agent_id ≠ a →
      row ∈ (deleteDocument st agentUuid documentId).1.agent_training_data) ∧
    ∀ row ∈ st.agent_training_data, row.file_url = doc.file_url →
      row.agent_id = a →
      row ∉ (deleteDocument st agentUuid documentId).1.agent_training_data := by
  have hdel : deleteDocument st agentUuid documentId =
      ({ st with
          blobs :=
            match s3KeyOfUrl doc.file_url with
            | some key => st.blobs.filter (fun b => b ≠ key)
            | none => st.blobs
          agent_training_data := st.agent_training_data.filter
            (fun r => !(r.file_url = doc.file_url && r.agent_id = a))
          knowledge_sources := st.knowledge_sources.filter
            (fun k => !(k.id = documentId && k.agent_id = a)) },
        .ok true) := by
    unfold deleteDocument
    rw [hA]
    simp only [hdoc]
  refine ⟨by rw [hdel], by rw [hdel], ?_, ?_⟩
  · intro row hrow hne
    rw [hdel]
    refine List.mem_filter.2 ⟨hrow, ?_⟩
    simp [hne]
  · intro row hrow hurl hagent hmem
    rw [hdel] at hmem
    have := (List.mem_filter.1 hmem).2
    simp [hurl, hagent] at this

/-- Witness for C10: deleting document 1 of owner 1 also removes the
chunk of document 2 (same owner, same file URL) and keeps the other
owner's chunk. -/
theorem C10_delete_by_file_url_witness :
    (deleteDocument
        ⟨[⟨1, "agent-a", 7⟩, ⟨2, "agent-b", 7⟩],
          [⟨1, 1, "d1", "uShared", "text"⟩, ⟨2, 1, "d2", "uShared", "text"⟩],
          [⟨1, 1, "c1", "x", "text", "uShared", 0, [0]⟩,
            ⟨2, 1, "c2", "y", "text", "uShared", 0, [0]⟩,
            ⟨3, 2, "c3", "z", "text", "uShared", 0, [0]⟩],
          [], 3, 3, 4⟩ "agent-a" 1).2 = .ok true ∧
    (deleteDocument
        ⟨[⟨1, "agent-a", 7⟩, ⟨2, "agent-b", 7⟩],
          [⟨1, 1, "d1", "uShared", "text"⟩, ⟨2, 1, "d2", "uShared", "text"⟩],
          [⟨1, 1, "c1", "x", "text", "uShared", 0, [0]⟩,
            ⟨2, 1, "c2", "y", "text", "uShared", 0, [0]⟩,
            ⟨3, 2, "c3", "z", "text", "uShared", 0, [0]⟩],
          [], 3, 3, 4⟩ "agent-a" 1).1.agent_training_data =
      [⟨3, 2, "c3", "z", "text", "uShared", 0, [0]⟩] := by
  have h := C10_delete_by_file_url
    ⟨[⟨1, "agent-a", 7⟩, ⟨2, "agent-b", 7⟩],
      [⟨1, 1, "d1", "uShared", "text"⟩, ⟨2, 1, "d2", "uShared", "text"⟩],
      [⟨1, 1, "c1", "x", "text", "uShared", 0, [0]⟩,
        ⟨2, 1, "c2", "y", "text", "uShared", 0, [0]⟩,
        ⟨3, 2, "c3", "z", "text", "uShared", 0, [0]⟩],
      [], 3, 3, 4⟩ "agent-a" 1 1 ⟨1, 1, "d1", "uShared", "text"⟩
    (by simp [getAgentId]) (by simp)
  refine ⟨h.1, ?_⟩
  rw [h.2.1]
  simp

end TrainAgent
